import Mathlib

set_option maxHeartbeats 1000000

/-!
Shallow embedding of the engagement bot's core:
the persistent ledger (src/utils/database.py), the rate limiter and
decision engine (src/utils/base_monitor.py), and the Slack approval
server (src/slack_approval_server.py).

Modelling conventions: timestamps are integer seconds; each SQLite table
is a list of rows; the JSON blobs stored in pending approvals are
modelled by the single field the server actually reads back
(post_data's author_handle).  Fallible external calls (the platform
adapter, the LLM) are modelled by explicit outcome parameters.
-/

/-- A row of the seen_posts table.  Schema (database.py, init_database):
post_id TEXT PRIMARY KEY, platform TEXT NOT NULL, author_handle TEXT,
seen_at TIMESTAMP, responded BOOLEAN DEFAULT 0.  Note the primary key is
post_id alone. -/
structure SeenRow where
  post_id : String
  platform : String
  author_handle : String
  seen_at : Int
  responded : Bool
deriving DecidableEq

/-- A row of the response_log table: post_id, platform, author_handle,
sentiment, response_text, posted_at.  sentiment and response_text are
nullable (process_approval passes None for reshares). -/
structure LogRow where
  post_id : String
  platform : String
  author_handle : String
  sentiment : Option String
  response_text : Option String
  posted_at : Int
deriving DecidableEq

/-- A row of the rate_limits table: platform, reply_time. -/
structure RateRow where
  platform : String
  reply_time : Int
deriving DecidableEq

/-- A row of the pending_approvals table.  post_data and decision_data
are stored as JSON text; the only component the approval server ever
reads back out of post_data is author_handle
(post_data.get('author_handle', 'unknown')), so that is the component
modelled here. -/
structure ApprovalRow where
  post_id : String
  platform : String
  action : String
  author_handle : Option String
  reply_text : Option String
  status : String
  created_at : Int
  responded_at : Option Int
deriving DecidableEq

/-- The whole SQLite database (data/bluesky_bot.db): the four tables,
plus the AUTOINCREMENT counter feeding pending_approvals.id. -/
structure DB where
  seen_posts : List SeenRow
  response_log : List LogRow
  rate_limits : List RateRow
  pending_approvals : List (Nat × ApprovalRow)
  next_id : Nat
deriving DecidableEq

/-- Database.has_seen_post: SELECT 1 FROM seen_posts WHERE post_id = ?
AND platform = ?. -/
def has_seen_post (db : DB) (post_id platform : String) : Bool :=
  db.seen_posts.any fun r => decide (r.post_id = post_id ∧ r.platform = platform)

/-- Database.mark_post_seen: INSERT OR REPLACE INTO seen_posts.  SQLite
replaces on a primary-key conflict, and the primary key of seen_posts is
post_id alone, so any existing row with this post_id (whatever its
platform) is deleted and the fresh row inserted. -/
def mark_post_seen (db : DB) (now : Int) (post_id platform author_handle : String)
    (responded : Bool) : DB :=
  { db with seen_posts :=
      db.seen_posts.filter (fun r => !decide (r.post_id = post_id))
        ++ [⟨post_id, platform, author_handle, now, responded⟩] }

/-- The three writes of Database.record_reply applied to the database:
UPDATE seen_posts SET responded = 1 WHERE post_id = ? AND platform = ?;
INSERT INTO response_log (...); INSERT INTO rate_limits (platform). -/
def record_reply_writes (db : DB) (now : Int) (post_id platform author_handle : String)
    (sentiment response_text : Option String) : DB :=
  { db with
    seen_posts := db.seen_posts.map fun (r : SeenRow) =>
      if r.post_id = post_id ∧ r.platform = platform then { r with responded := true } else r,
    response_log := db.response_log
      ++ [(⟨post_id, platform, author_handle, sentiment, response_text, now⟩ : LogRow)],
    rate_limits := db.rate_limits ++ [(⟨platform, now⟩ : RateRow)] }

/-- Database.record_reply run under the get_connection context manager:
the three writes execute in order inside one connection scope, which
commits only if all succeed and rolls back (re-raising the error) if any
write raises.  The booleans w1 w2 w3 say whether each write succeeds;
an error result means the transaction rolled back, so the caller's
visible state is still the original database. -/
def record_reply (db : DB) (now : Int) (post_id platform author_handle : String)
    (sentiment response_text : Option String) (w1 w2 w3 : Bool) : Except Unit DB :=
  if ¬w1 then .error () else
  let db1 := { db with seen_posts := db.seen_posts.map fun (r : SeenRow) =>
      if r.post_id = post_id ∧ r.platform = platform then { r with responded := true } else r }
  if ¬w2 then .error () else
  let db2 := { db1 with response_log := db1.response_log
      ++ [(⟨post_id, platform, author_handle, sentiment, response_text, now⟩ : LogRow)] }
  if ¬w3 then .error () else
  .ok { db2 with rate_limits := db2.rate_limits ++ [(⟨platform, now⟩ : RateRow)] }

/-- The rows of rate_limits selected by both windowed queries of
database.py: WHERE platform = ? AND reply_time > cutoff, with
cutoff = now - hours (hours converted to seconds). -/
def replies_within (db : DB) (now : Int) (platform : String) (hours : Int) : List Int :=
  (db.rate_limits.filter fun r =>
    decide (r.platform = platform ∧ r.reply_time > now - hours * 3600)).map (·.reply_time)

/-- Database.get_reply_count: SELECT COUNT(*) over the window. -/
def get_reply_count (db : DB) (now : Int) (platform : String) (hours : Int) : Nat :=
  (replies_within db now platform hours).length

/-- Insert into a list kept in descending order (model of ORDER BY
reply_time DESC). -/
def insertDesc (x : Int) : List Int → List Int
  | [] => [x]
  | y :: ys => if y ≤ x then x :: y :: ys else y :: insertDesc x ys

/-- Sort a list of timestamps into descending order. -/
def sortDesc : List Int → List Int
  | [] => []
  | x :: xs => insertDesc x (sortDesc xs)

/-- Database.get_reply_timestamps: the windowed reply times, most recent
first (ORDER BY reply_time DESC). -/
def get_reply_timestamps (db : DB) (now : Int) (platform : String) (hours : Int) : List Int :=
  sortDesc (replies_within db now platform hours)

/-- RateLimiter.can_reply (base_monitor.py lines 34-67): reject when the
1-hour count reaches max_per_hour, then when the 24-hour count reaches
max_per_day, then when the most recent reply inside the 1-hour window is
closer than min_seconds_between; otherwise permit.  It reads the ledger
afresh on each call and returns a Bool without modifying any state. -/
def can_reply (db : DB) (now : Int) (platform : String)
    (max_per_hour max_per_day : Nat) (min_seconds_between : Int) : Bool :=
  let hourly_count := get_reply_count db now platform 1
  let daily_count := get_reply_count db now platform 24
  if hourly_count ≥ max_per_hour then false
  else if daily_count ≥ max_per_day then false
  else
    match (get_reply_timestamps db now platform 1).head? with
    | some last_reply => if now - last_reply < min_seconds_between then false else true
    | none => true

/-- The structured output contract of decision Stage 1:
should_engage, reason, sentiment. -/
structure EngagementDecision where
  should_engage : Bool
  reason : String
  sentiment : String
deriving DecidableEq

/-- Outcome of the LLM call inside ClaudeDecisionEngine.decide_engagement:
either the response text parsed as a JSON decision object, or it raised
json.JSONDecodeError, or the call itself raised some other exception. -/
inductive ModelCallResult where
  | parsed : EngagementDecision → ModelCallResult
  | unparseable : ModelCallResult
  | callError : ModelCallResult
deriving DecidableEq

/-- ClaudeDecisionEngine.decide_engagement (base_monitor.py lines
139-163): return the parsed result; on json.JSONDecodeError return
the should_engage=False / "parse_error" / "error" object; on any other
exception return the should_engage=False / "error" / "error" object.
Both except arms swallow the exception, so as a total function nothing
propagates to the caller. -/
def decide_engagement : ModelCallResult → EngagementDecision
  | .parsed d => d
  | .unparseable => ⟨false, "parse_error", "error"⟩
  | .callError => ⟨false, "error", "error"⟩

/-- Python slice s[:n] on a list of characters, for an arbitrary integer
bound n: a negative bound counts from the end, clamped at zero. -/
def pySlicePrefix (s : List Char) (n : Int) : List Char :=
  if 0 ≤ n then s.take n.toNat else s.take (s.length - (-n).toNat)

/-- The deterministic post-processing step of
ClaudeDecisionEngine.generate_response (base_monitor.py lines 388-392):
if len(reply) > max_chars then reply = reply[:max_chars - 3] + "...". -/
def generate_response_truncation (reply : List Char) (max_chars : Int) : List Char :=
  if (reply.length : Int) > max_chars then
    pySlicePrefix reply (max_chars - 3) ++ ['.', '.', '.']
  else reply

/-- Database.create_pending_approval: INSERT INTO pending_approvals with
status defaulting to 'pending', created_at to the current time and
responded_at NULL; cursor.lastrowid (the fresh AUTOINCREMENT id) is
returned. -/
def create_pending_approval (db : DB) (now : Int) (post_id platform action : String)
    (post_author : Option String) (reply_text : Option String) : DB × Nat :=
  ({ db with
      pending_approvals := db.pending_approvals
        ++ [(db.next_id, ⟨post_id, platform, action, post_author, reply_text,
              "pending", now, none⟩)],
      next_id := db.next_id + 1 },
   db.next_id)

/-- Row lookup by approval id (SQL: WHERE id = ?; the id column is the
primary key, so the first hit is the row). -/
def lookupApproval : List (Nat × ApprovalRow) → Nat → Option ApprovalRow
  | [], _ => none
  | p :: ps, i => if p.1 = i then some p.2 else lookupApproval ps i

/-- Database.get_pending_approval: SELECT * FROM pending_approvals
WHERE id = ?. -/
def get_pending_approval (db : DB) (approval_id : Nat) : Option ApprovalRow :=
  lookupApproval db.pending_approvals approval_id

/-- The status column of an approval row, when the row exists. -/
def statusOf (db : DB) (approval_id : Nat) : Option String :=
  (get_pending_approval db approval_id).map (·.status)

/-- The column assignment performed by update_approval_status on the
matching row: SET status = ?, responded_at = CURRENT_TIMESTAMP. -/
def setStatus (status : String) (now : Int) (a : ApprovalRow) : ApprovalRow :=
  { a with status := status, responded_at := some now }

/-- Database.update_approval_status: UPDATE pending_approvals SET
status = ?, responded_at = CURRENT_TIMESTAMP WHERE id = ?. -/
def update_approval_status (db : DB) (approval_id : Nat) (status : String)
    (now : Int) : DB :=
  { db with pending_approvals := db.pending_approvals.map fun p =>
      if p.1 = approval_id then (p.1, setStatus status now p.2)
      else p }

/-- Every stored approval id is below the AUTOINCREMENT counter, so the
id handed out by create_pending_approval is fresh.  SQLite guarantees
this for an AUTOINCREMENT primary key. -/
def approval_ids_fresh (db : DB) : Prop :=
  ∀ p ∈ db.pending_approvals, p.1 < db.next_id

instance (db : DB) : Decidable (approval_ids_fresh db) :=
  List.decidableBAll _ _

/-- slack_approval_server.process_approval: for platform 'bluesky' it
compares the stored action against the literals 'reply' and 'reshare';
on an adapter success it records the outcome through db.record_reply
(note the source call passes reply_text in the sentiment position and
the action string in the response_text position) and returns True; on an
adapter failure, or for any other platform or action, it returns False
without touching the database.  The whole body sits in a try/except, so
when db.record_reply raises AFTER a successful post, the exception is
swallowed and False is returned - the reply is live on the platform but
nothing is recorded (record_reply's own transaction rolled back) and the
caller will not mark the approval approved.  record_ok says whether that
recording transaction would commit; adapter_ok is the success value the
platform adapter would report.  Result: (database after, returned
success flag, whether the platform adapter was invoked). -/
def process_approval (db : DB) (now : Int) (a : ApprovalRow)
    (adapter_ok record_ok : Bool) : DB × Bool × Bool :=
  if a.platform = "bluesky" then
    if a.action = "reply" then
      if adapter_ok then
        if record_ok then
          (record_reply_writes db now a.post_id a.platform
            (a.author_handle.getD "unknown") a.reply_text (some "reply"), true, true)
        else (db, false, true)
      else (db, false, true)
    else if a.action = "reshare" then
      if adapter_ok then
        if record_ok then
          (record_reply_writes db now a.post_id a.platform
            (a.author_handle.getD "unknown") none (some "reshare"), true, true)
        else (db, false, true)
      else (db, false, true)
    else (db, false, false)
  else (db, false, false)

/-- The HTTP-level response of the /slack/interactive endpoint, as far
as the claims observe it. -/
inductive ServerResponse where
  /-- 403 - Invalid signature. -/
  | forbidden : ServerResponse
  /-- 404 - Approval not found. -/
  | notFound : ServerResponse
  /-- 200 - "This approval has already been {status}". -/
  | already : String → ServerResponse
  /-- 200 acknowledgement after an approve/reject was processed; the
  text is what gets posted back to the Slack thread. -/
  | ack : String → ServerResponse
deriving DecidableEq

/-- What one callback delivery did to the system. -/
structure DeliveryResult where
  db : DB
  resp : ServerResponse
  /-- process_approval returned True, so the handler completed the
  approval (post succeeded AND its recording committed) and set the
  status to 'approved' -/
  execSuccess : Bool
  /-- the platform adapter was invoked at all; together with the
  delivery's adapter_ok this says whether the action really happened on
  the platform, which can be true even when execSuccess is false -/
  adapterInvoked : Bool
deriving DecidableEq

/-- The core of slack_approval_server.slack_interactive (lines 107-124),
after signature verification and payload parsing: look up the approval;
absent ⇒ 404; status outside 'pending' ⇒ idempotent 200 reporting the
existing status, with no state change and no execution; otherwise an
'approve' runs process_approval and marks the approval 'approved' only
when it returned True, while any other verb marks it 'rejected' without
execution.  This function models one delivery as a sequential step; in
the source the lookup, execution and status write run in separate SQLite
connections with no compare-and-swap, so overlapping deliveries from the
threaded Flask server are outside this model. -/
def slack_interactive (db : DB) (now : Int) (action_type : String) (approval_id : Nat)
    (adapter_ok record_ok : Bool) : DeliveryResult :=
  match get_pending_approval db approval_id with
  | none => ⟨db, .notFound, false, false⟩
  | some a =>
    if a.status ≠ "pending" then ⟨db, .already a.status, false, false⟩
    else if action_type = "approve" then
      let r := process_approval db now a adapter_ok record_ok
      if r.2.1 then
        ⟨update_approval_status r.1 approval_id "approved" now,
         .ack "✅ APPROVED & POSTED", true, r.2.2⟩
      else ⟨r.1, .ack "❌ FAILED TO POST - Check logs for details", false, r.2.2⟩
    else
      ⟨update_approval_status db approval_id "rejected" now,
       .ack "❌ REJECTED - Will not be posted", false, false⟩

/-- One callback delivery: the verb parsed out of the button value, the
approval id it targets, the success value the platform adapter would
report if invoked, and whether the post-success outcome-recording
transaction (db.record_reply) would commit. -/
structure Delivery where
  action_type : String
  approval_id : Nat
  adapter_ok : Bool
  record_ok : Bool

/-- Run a sequence of (sequential, non-overlapping) callback deliveries
through slack_interactive and count, for the approval id i: how many
deliveries moved its status out of 'pending', how many completed the
approval (process_approval returned True and the status was set to
'approved'), and how many times the platform adapter actually performed
the gated action (it was invoked and reported success, whether or not
the subsequent recording committed). -/
def run_trace (db : DB) (now : Int) (i : Nat) : List Delivery → Nat × Nat × Nat
  | [] => (0, 0, 0)
  | d :: ds =>
    let r := slack_interactive db now d.action_type d.approval_id d.adapter_ok d.record_ok
    let t := if statusOf db i = some "pending" ∧ statusOf r.db i ≠ some "pending" then 1 else 0
    let e := if r.execSuccess = true ∧ d.approval_id = i then 1 else 0
    let p := if r.adapterInvoked = true ∧ d.adapter_ok = true ∧ d.approval_id = i
      then 1 else 0
    let rest := run_trace r.db now i ds
    (t + rest.1, e + rest.2.1, p + rest.2.2)

/-- slack_approval_server.verify_slack_signature: with no
SLACK_SIGNING_SECRET in the environment (None, or the falsy empty
string) every request passes; otherwise the expected signature is
'v0=' ++ HMAC-SHA256-hex(secret, "v0:{timestamp}:{body}") and the
request passes exactly when the supplied signature equals it
(hmac.compare_digest).  The HMAC primitive itself is library code,
abstracted here as the function hmac_hex from (key, message) to the hex
digest. -/
def verify_slack_signature (secret : Option String) (hmac_hex : String → String → String)
    (request_body timestamp signature : String) : Bool :=
  match secret with
  | none => true
  | some s =>
    if s = "" then true
    else decide ("v0=" ++ hmac_hex s ("v0:" ++ timestamp ++ ":" ++ request_body) = signature)

/-- The /slack/interactive endpoint including its authentication gate:
a request failing verify_slack_signature gets 403 and changes nothing;
otherwise the delivery is processed by the handler core. -/
def slack_interactive_endpoint (secret : Option String)
    (hmac_hex : String → String → String) (request_body timestamp signature : String)
    (db : DB) (now : Int) (action_type : String) (approval_id : Nat)
    (adapter_ok record_ok : Bool) : DeliveryResult :=
  if verify_slack_signature secret hmac_hex request_body timestamp signature then
    slack_interactive db now action_type approval_id adapter_ok record_ok
  else ⟨db, .forbidden, false, false⟩

/-- Outcome of the terminal manual-approval gate for a reply. -/
inductive GateOutcome where
  | posted : String → GateOutcome
  | aborted : GateOutcome
deriving DecidableEq

/-- Python str.lower() on one character (ASCII range, which covers the
console answers this gate reads). -/
def py_lower_char (c : Char) : Char :=
  if 'A' ≤ c ∧ c ≤ 'Z' then Char.ofNat (c.toNat + 32) else c

/-- The whitespace removed by Python str.strip() with no argument. -/
def py_is_space (c : Char) : Bool :=
  c = ' ' ∨ c = '\t' ∨ c = '\n' ∨ c = '\r' ∨ c = '\x0b' ∨ c = '\x0c'

/-- Python str.strip(): drop leading and trailing whitespace. -/
def py_strip (s : String) : String :=
  ⟨(((s.data.dropWhile py_is_space).reverse.dropWhile py_is_space).reverse)⟩

/-- Python s.strip().lower(). -/
def py_strip_lower (s : String) : String :=
  ⟨(py_strip s).data.map py_lower_char⟩

/-- The manual (synchronous) gating prompt of BaseMonitor.process_post
(base_monitor.py lines 601-609) for a reply action, as a function of the
successive console answers (missing answers read as ""):
approval = input("Post this reply? (y/n/e=edit): ").strip().lower();
if approval == 'e': reply_text = input("Enter new reply: ").strip();
approval = 'y'; if approval != 'y': return (abort); otherwise the
(possibly replaced) reply text goes on to be posted. -/
def manual_reply_gate (proposed : String) (inputs : List String) : GateOutcome :=
  let approval := py_strip_lower (inputs.getD 0 "")
  let state :=
    if approval = "e" then (("y" : String), py_strip (inputs.getD 1 ""))
    else (approval, proposed)
  if state.1 ≠ "y" then .aborted else .posted state.2

/-- The rest of the manual-mode reply branch of process_post: an abort
returns with no execution and no database write; otherwise the reply is
posted through the platform adapter and, only on adapter success,
recorded via db.record_reply.  Result: (database after, text handed to
the adapter if it was invoked). -/
def process_post_manual_reply (db : DB) (now : Int)
    (post_id platform author sentiment proposed : String) (inputs : List String)
    (adapter_ok : Bool) : DB × Option String :=
  match manual_reply_gate proposed inputs with
  | .aborted => (db, none)
  | .posted t =>
    if adapter_ok then
      (record_reply_writes db now post_id platform author (some sentiment) (some t), some t)
    else (db, some t)

/-- The empty database, as produced by init_database on a fresh file
(next AUTOINCREMENT id is 1). -/
def emptyDB : DB := ⟨[], [], [], [], 1⟩

/-- A database holding a single, not yet responded, seen post (used to
instantiate theorems at concrete states). -/
def dbSeenOne : DB := ⟨[⟨"p1", "bluesky", "alice", 0, false⟩], [], [], [], 1⟩

/-- A database whose only approval (id 1) has already been resolved to
'approved'. -/
def dbApproved : DB :=
  ⟨[], [], [],
   [(1, ⟨"p1", "bluesky", "reply", some "alice", some "hi", "approved", 0, some 1⟩)], 2⟩

/-- A database with one unresponded seen post and one pending approval
(id 1) for a 'reply' action on it. -/
def dbPendingReply : DB :=
  ⟨[⟨"p1", "bluesky", "alice", 0, false⟩], [], [],
   [(1, ⟨"p1", "bluesky", "reply", some "alice", some "hi", "pending", 0, none⟩)], 2⟩

/-! ## Theorems -/

/-- C7: whenever Stage 1's model response is unparseable or the call
errors, decide_engagement fails closed: should_engage is false, the
sentiment is the 'error' sentinel, and the reason is the matching
diagnostic tag; being a total function of the call outcome, it lets no
exception escape. -/
theorem decide_engagement_fail_closed (r : ModelCallResult)
    (h : r = ModelCallResult.unparseable ∨ r = ModelCallResult.callError) :
    (decide_engagement r).should_engage = false ∧
    (decide_engagement r).sentiment = "error" ∧
    (r = ModelCallResult.unparseable → (decide_engagement r).reason = "parse_error") ∧
    (r = ModelCallResult.callError → (decide_engagement r).reason = "error") := by
  rcases h with h | h <;> subst h <;> decide

/-- Witness for C7 at the unparseable outcome. -/
theorem decide_engagement_fail_closed_witness :
    (decide_engagement ModelCallResult.unparseable).should_engage = false ∧
    (decide_engagement ModelCallResult.unparseable).sentiment = "error" ∧
    (ModelCallResult.unparseable = ModelCallResult.unparseable →
      (decide_engagement ModelCallResult.unparseable).reason = "parse_error") ∧
    (ModelCallResult.unparseable = ModelCallResult.callError →
      (decide_engagement ModelCallResult.unparseable).reason = "error") :=
  decide_engagement_fail_closed ModelCallResult.unparseable (Or.inl rfl)

/-- C6 counterexample: at max_chars = 2 (< 3) the Python slice
reply[:max_chars - 3] counts from the end, so a 4-character reply
truncates to 6 characters, not to the claimed exactly-2. -/
theorem generate_response_truncation_cex :
    ((("abcd".toList).length : Int) > 2) ∧
    (generate_response_truncation "abcd".toList 2).length = 6 ∧
    ¬((generate_response_truncation "abcd".toList 2).length = 2) := by
  decide

/-- C6 (amended to max_chars ≥ 3): an over-long generated reply is cut
to exactly max_chars characters, keeping the original's first
max_chars - 3 characters and ending in the three-character '...'
marker; a reply within the limit is returned unchanged. -/
theorem generate_response_truncation_spec (reply : List Char) (max_chars : Int)
    (h3 : 3 ≤ max_chars) :
    ((reply.length : Int) > max_chars →
      ((generate_response_truncation reply max_chars).length : Int) = max_chars ∧
      (generate_response_truncation reply max_chars).take (max_chars.toNat - 3)
        = reply.take (max_chars.toNat - 3) ∧
      (generate_response_truncation reply max_chars).drop (max_chars.toNat - 3)
        = ['.', '.', '.']) ∧
    ((reply.length : Int) ≤ max_chars →
      generate_response_truncation reply max_chars = reply) := by
  constructor
  · intro hlong
    have h0 : 0 ≤ max_chars - 3 := by omega
    have hsl : pySlicePrefix reply (max_chars - 3) = reply.take (max_chars - 3).toNat := by
      unfold pySlicePrefix
      rw [if_pos h0]
    have hk : (max_chars - 3).toNat ≤ reply.length := by omega
    have hlen : (reply.take (max_chars - 3).toNat).length = (max_chars - 3).toNat :=
      List.length_take_of_le hk
    have hkk : max_chars.toNat - 3 = (max_chars - 3).toNat := by omega
    have htr : generate_response_truncation reply max_chars
        = reply.take (max_chars - 3).toNat ++ ['.', '.', '.'] := by
      unfold generate_response_truncation
      rw [if_pos hlong, hsl]
    refine ⟨?_, ?_, ?_⟩
    · rw [htr]
      rw [List.length_append, hlen]
      simp only [List.length_cons, List.length_nil]
      omega
    · rw [htr, hkk, List.take_append_of_le_length (by omega)]
      rw [List.take_take]
      congr 1
      omega
    · rw [htr, hkk, List.drop_left' hlen]
  · intro hle
    unfold generate_response_truncation
    rw [if_neg (by omega)]

/-- Witness for C6's amended theorem at max_chars = 20 and a 30-character
reply (the spec's own test vector): the truncation is exactly 20
characters, its first 17 characters are the original's prefix, and it
ends in '...'; and a short reply is unchanged. -/
theorem generate_response_truncation_spec_witness :
    ((("abcdefghijklmnopqrstuvwxyz1234".toList).length : Int) > 20 →
      ((generate_response_truncation "abcdefghijklmnopqrstuvwxyz1234".toList 20).length : Int)
          = 20 ∧
      (generate_response_truncation "abcdefghijklmnopqrstuvwxyz1234".toList 20).take (Int.toNat 20 - 3)
          = ("abcdefghijklmnopqrstuvwxyz1234".toList).take (Int.toNat 20 - 3) ∧
      (generate_response_truncation "abcdefghijklmnopqrstuvwxyz1234".toList 20).drop (Int.toNat 20 - 3)
          = ['.', '.', '.']) ∧
    ((("abcdefghijklmnopqrstuvwxyz1234".toList).length : Int) ≤ 20 →
      generate_response_truncation "abcdefghijklmnopqrstuvwxyz1234".toList 20
          = "abcdefghijklmnopqrstuvwxyz1234".toList) :=
  generate_response_truncation_spec "abcdefghijklmnopqrstuvwxyz1234".toList 20 (by decide)

/-- After mark_post_seen, the rows carrying the marked post_id are
exactly the one fresh row (the INSERT OR REPLACE replaced any previous
holder of the primary key post_id). -/
theorem mark_post_seen_filter (db : DB) (t : Int) (id p a : String) (r : Bool) :
    (mark_post_seen db t id p a r).seen_posts.filter (fun s => decide (s.post_id = id))
      = [⟨id, p, a, t, r⟩] := by
  unfold mark_post_seen
  simp

/-- After mark_post_seen of (id, p), has_seen_post for (id, p') holds
exactly when p' is the platform just written: the replaced rows are
gone. -/
theorem has_seen_mark (db : DB) (t : Int) (id p a : String) (r : Bool) (p' : String) :
    has_seen_post (mark_post_seen db t id p a r) id p' = decide (p = p') := by
  unfold has_seen_post mark_post_seen
  simp
  exact fun x _ h1 h2 _ => absurd h2 h1

/-- C2 counterexample: seen_posts is keyed by post_id alone, so marking
the same post_id seen under a second platform REPLACES the first
platform's record — hasSeen for the first platform flips back to
false, contradicting "creates a distinct record and never replaces or
removes the record for the first platform". -/
theorem mark_post_seen_cross_platform_cex :
    has_seen_post (mark_post_seen emptyDB 0 "p1" "bluesky" "alice" false) "p1" "bluesky"
        = true ∧
    has_seen_post
      (mark_post_seen (mark_post_seen emptyDB 0 "p1" "bluesky" "alice" false)
        1 "p1" "twitter" "alice" false) "p1" "bluesky" = false := by
  decide

/-- C2 (amended): seen-post records are keyed by post_id alone.  Marking
a post seen leaves exactly one record with that post_id, and marking it
again (same platform or not) still leaves exactly one; hasSeen(id, p)
holds after marking under p, and stays true after a second identical
mark; but marking the same post_id under a different platform replaces
the record, so hasSeen for the first platform becomes false. -/
theorem seen_posts_keyed_by_post_id (db : DB) (t1 t2 : Int) (id p1 p2 a1 a2 : String)
    (r1 r2 : Bool) :
    ((mark_post_seen db t1 id p1 a1 r1).seen_posts.filter
        (fun s => decide (s.post_id = id))).length = 1 ∧
    ((mark_post_seen (mark_post_seen db t1 id p1 a1 r1) t2 id p2 a2 r2).seen_posts.filter
        (fun s => decide (s.post_id = id))).length = 1 ∧
    has_seen_post (mark_post_seen db t1 id p1 a1 r1) id p1 = true ∧
    has_seen_post (mark_post_seen (mark_post_seen db t1 id p1 a1 r1) t2 id p2 a2 r2) id p2
        = true ∧
    (p1 ≠ p2 →
      has_seen_post (mark_post_seen (mark_post_seen db t1 id p1 a1 r1) t2 id p2 a2 r2) id p1
        = false) := by
  refine ⟨?_, ?_, ?_, ?_, ?_⟩
  · rw [mark_post_seen_filter]
    rfl
  · rw [mark_post_seen_filter]
    rfl
  · rw [has_seen_mark]
    simp
  · rw [has_seen_mark]
    simp
  · intro hne
    rw [has_seen_mark]
    simpa using fun h => hne h.symm

/-- Witness for C2's amended theorem at concrete platforms "bluesky" and
"twitter" on the empty database. -/
theorem seen_posts_keyed_by_post_id_witness :
    ((mark_post_seen emptyDB 0 "p1" "bluesky" "alice" false).seen_posts.filter
        (fun s => decide (s.post_id = "p1"))).length = 1 ∧
    ((mark_post_seen (mark_post_seen emptyDB 0 "p1" "bluesky" "alice" false)
        1 "p1" "twitter" "bob" false).seen_posts.filter
        (fun s => decide (s.post_id = "p1"))).length = 1 ∧
    has_seen_post (mark_post_seen emptyDB 0 "p1" "bluesky" "alice" false) "p1" "bluesky"
        = true ∧
    has_seen_post (mark_post_seen (mark_post_seen emptyDB 0 "p1" "bluesky" "alice" false)
        1 "p1" "twitter" "bob" false) "p1" "twitter" = true ∧
    has_seen_post (mark_post_seen (mark_post_seen emptyDB 0 "p1" "bluesky" "alice" false)
        1 "p1" "twitter" "bob" false) "p1" "bluesky" = false := by
  have h := seen_posts_keyed_by_post_id emptyDB 0 1 "p1" "bluesky" "twitter" "alice" "bob"
    false false
  exact ⟨h.1, h.2.1, h.2.2.1, h.2.2.2.1, h.2.2.2.2 (by decide)⟩

/-- C5: record_reply, run under the connection context manager, is one
transaction of exactly three writes.  When all three writes succeed the
result is the committed state in which the (post_id, platform)
seen-record is flipped to responded, exactly one response_log row and
exactly one rate_limits row are appended, and nothing else (in
particular no approval) changed; if any write fails, the error is
surfaced to the caller and the transaction rolls back, so no partial
state is visible - the caller still holds the original database. -/
theorem record_reply_transaction (db : DB) (now : Int)
    (post_id platform author : String) (sentiment text : Option String)
    (w1 w2 w3 : Bool) (hseen : has_seen_post db post_id platform = true) :
    (w1 = true → w2 = true → w3 = true →
      record_reply db now post_id platform author sentiment text w1 w2 w3
          = .ok (record_reply_writes db now post_id platform author sentiment text) ∧
      (record_reply_writes db now post_id platform author sentiment text).response_log
          = db.response_log ++ [⟨post_id, platform, author, sentiment, text, now⟩] ∧
      (record_reply_writes db now post_id platform author sentiment text).rate_limits
          = db.rate_limits ++ [⟨platform, now⟩] ∧
      (∃ r, r ∈ (record_reply_writes db now post_id platform author sentiment text).seen_posts
          ∧ r.post_id = post_id ∧ r.platform = platform ∧ r.responded = true) ∧
      (record_reply_writes db now post_id platform author sentiment text).pending_approvals
          = db.pending_approvals) ∧
    ((w1 = false ∨ w2 = false ∨ w3 = false) →
      record_reply db now post_id platform author sentiment text w1 w2 w3 = .error ()) := by
  constructor
  · intro h1 h2 h3
    subst h1; subst h2; subst h3
    refine ⟨by simp [record_reply, record_reply_writes], rfl, rfl, ?_, rfl⟩
    unfold has_seen_post at hseen
    rw [List.any_eq_true] at hseen
    obtain ⟨r, hr, hcond⟩ := hseen
    rw [decide_eq_true_eq] at hcond
    refine ⟨{ r with responded := true }, ?_, hcond.1, hcond.2, rfl⟩
    unfold record_reply_writes
    refine List.mem_map.mpr ⟨r, hr, ?_⟩
    rw [if_pos hcond]
  · intro h
    cases w1 <;> cases w2 <;> cases w3 <;> simp_all [record_reply]

/-- Witness for C5 at a database with one unresponded seen post, all
three writes succeeding and, in the same statement, the failing case. -/
theorem record_reply_transaction_witness :
    (true = true → true = true → true = true →
      record_reply dbSeenOne 5 "p1" "bluesky" "alice" (some "positive") (some "hi")
          true true true
          = .ok (record_reply_writes dbSeenOne 5 "p1" "bluesky" "alice" (some "positive")
                  (some "hi")) ∧
      (record_reply_writes dbSeenOne 5 "p1" "bluesky" "alice" (some "positive")
          (some "hi")).response_log
          = dbSeenOne.response_log
              ++ [⟨"p1", "bluesky", "alice", some "positive", some "hi", 5⟩] ∧
      (record_reply_writes dbSeenOne 5 "p1" "bluesky" "alice" (some "positive")
          (some "hi")).rate_limits
          = dbSeenOne.rate_limits ++ [⟨"bluesky", 5⟩] ∧
      (∃ r, r ∈ (record_reply_writes dbSeenOne 5 "p1" "bluesky" "alice" (some "positive")
              (some "hi")).seen_posts
          ∧ r.post_id = "p1" ∧ r.platform = "bluesky" ∧ r.responded = true) ∧
      (record_reply_writes dbSeenOne 5 "p1" "bluesky" "alice" (some "positive")
          (some "hi")).pending_approvals
          = dbSeenOne.pending_approvals) ∧
    ((true = false ∨ true = false ∨ true = false) →
      record_reply dbSeenOne 5 "p1" "bluesky" "alice" (some "positive") (some "hi")
          true true true = .error ()) :=
  record_reply_transaction dbSeenOne 5 "p1" "bluesky" "alice" (some "positive") (some "hi")
    true true true (by decide)

/-- getD on an appended list reads from the left part while the index is
in range. -/
theorem getD_append_left {α : Type} {l l' : List α} {n : Nat} (d : α)
    (h : n < l.length) : (l ++ l').getD n d = l.getD n d := by
  simp [List.getD_eq_getElem?_getD, List.getElem?_append_left h]

/-- C8 counterexample: in manual mode, answering 'e' and supplying the
replacement text posts immediately - the code sets approval = 'y' itself
- so a following non-affirmative 'n' (the claimed "final yes/no
decision") is never consulted and the reply is executed anyway, where
the claim requires an abort. -/
theorem manual_reply_gate_cex :
    (process_post_manual_reply emptyDB 0 "p1" "bluesky" "alice" "positive" "orig"
        ["e", "new reply", "n"] true).2 = some "new reply" ∧
    (process_post_manual_reply emptyDB 0 "p1" "bluesky" "alice" "positive" "orig"
        ["e", "new reply", "n"] true).1 ≠ emptyDB := by
  decide

/-- C8 (amended): in manual (synchronous) gating of a reply, answering
'e' replaces the proposed reply text with the next console answer and
proceeds directly to posting it, auto-affirmed, with no further yes/no
prompt (only the first two answers are ever consulted); any first answer
other than 'y' or 'e' aborts without executing the action and without
writing any persisted state. -/
theorem manual_reply_gate_spec (db : DB) (now : Int)
    (post_id platform author sentiment proposed : String) (inputs : List String)
    (adapter_ok : Bool) :
    ((py_strip_lower (inputs.getD 0 "") ≠ "y" ∧ py_strip_lower (inputs.getD 0 "") ≠ "e") →
      process_post_manual_reply db now post_id platform author sentiment proposed
          inputs adapter_ok = (db, none)) ∧
    (py_strip_lower (inputs.getD 0 "") = "e" →
      (process_post_manual_reply db now post_id platform author sentiment proposed
          inputs adapter_ok).2 = some (py_strip (inputs.getD 1 ""))) ∧
    (2 ≤ inputs.length → ∀ extra,
      process_post_manual_reply db now post_id platform author sentiment proposed
          (inputs ++ extra) adapter_ok
        = process_post_manual_reply db now post_id platform author sentiment proposed
          inputs adapter_ok) := by
  refine ⟨?_, ?_, ?_⟩
  · intro h
    simp only [process_post_manual_reply, manual_reply_gate]
    rw [if_neg h.2, if_pos (by simpa using h.1)]
  · intro he
    simp only [process_post_manual_reply, manual_reply_gate]
    rw [if_pos he, if_neg (by simp)]
    cases adapter_ok <;> rfl
  · intro hlen extra
    unfold process_post_manual_reply manual_reply_gate
    rw [getD_append_left _ (by omega), getD_append_left _ (by omega)]

/-- Witness for C8's amended theorem: with a 'n' first answer the flow
aborts untouched; with 'e' then a replacement, the replacement is what
gets posted; appending extra answers after the first two changes
nothing. -/
theorem manual_reply_gate_spec_witness :
    ((py_strip_lower (["n", "x"].getD 0 "") ≠ "y" ∧
        py_strip_lower (["n", "x"].getD 0 "") ≠ "e") →
      process_post_manual_reply emptyDB 0 "p1" "bluesky" "alice" "positive" "orig"
          ["n", "x"] true = (emptyDB, none)) ∧
    (py_strip_lower (["n", "x"].getD 0 "") = "e" →
      (process_post_manual_reply emptyDB 0 "p1" "bluesky" "alice" "positive" "orig"
          ["n", "x"] true).2 = some (py_strip (["n", "x"].getD 1 ""))) ∧
    (2 ≤ (["n", "x"] : List String).length → ∀ extra,
      process_post_manual_reply emptyDB 0 "p1" "bluesky" "alice" "positive" "orig"
          (["n", "x"] ++ extra) true
        = process_post_manual_reply emptyDB 0 "p1" "bluesky" "alice" "positive" "orig"
          ["n", "x"] true) :=
  manual_reply_gate_spec emptyDB 0 "p1" "bluesky" "alice" "positive" "orig" ["n", "x"] true

/-- Membership in insertDesc. -/
theorem mem_insertDesc {a x : Int} {l : List Int} :
    a ∈ insertDesc x l ↔ a = x ∨ a ∈ l := by
  induction l with
  | nil => simp [insertDesc]
  | cons y ys ih =>
    unfold insertDesc
    by_cases h : y ≤ x
    · simp [h]
    · simp only [if_neg h, List.mem_cons, ih]
      tauto

/-- Membership in sortDesc. -/
theorem mem_sortDesc {a : Int} {l : List Int} : a ∈ sortDesc l ↔ a ∈ l := by
  induction l with
  | nil => simp [sortDesc]
  | cons y ys ih => simp [sortDesc, mem_insertDesc, ih]

/-- insertDesc never returns the empty list. -/
theorem insertDesc_ne_nil (x : Int) (l : List Int) : insertDesc x l ≠ [] := by
  cases l with
  | nil => simp [insertDesc]
  | cons y ys =>
    unfold insertDesc
    by_cases h : y ≤ x <;> simp [h]

/-- sortDesc is empty only on the empty list. -/
theorem sortDesc_eq_nil_iff {l : List Int} : sortDesc l = [] ↔ l = [] := by
  cases l with
  | nil => simp [sortDesc]
  | cons y ys =>
    simp only [sortDesc]
    exact ⟨fun h => absurd h (insertDesc_ne_nil y (sortDesc ys)), fun h => by cases h⟩

/-- insertDesc preserves descending pairwise order. -/
theorem pairwise_insertDesc {x : Int} {l : List Int}
    (h : l.Pairwise fun a b => b ≤ a) :
    (insertDesc x l).Pairwise fun a b => b ≤ a := by
  induction l with
  | nil => simp [insertDesc]
  | cons y ys ih =>
    rw [List.pairwise_cons] at h
    unfold insertDesc
    by_cases hyx : y ≤ x
    · rw [if_pos hyx, List.pairwise_cons]
      refine ⟨?_, List.pairwise_cons.mpr h⟩
      intro b hb
      rcases List.mem_cons.mp hb with hb | hb
      · exact hb ▸ hyx
      · exact le_trans (h.1 b hb) hyx
    · rw [if_neg hyx, List.pairwise_cons]
      refine ⟨?_, ih h.2⟩
      intro b hb
      rcases mem_insertDesc.mp hb with hb | hb
      · exact hb ▸ le_of_not_le hyx
      · exact h.1 b hb

/-- sortDesc returns a descending (pairwise) list. -/
theorem pairwise_sortDesc (l : List Int) :
    (sortDesc l).Pairwise fun a b => b ≤ a := by
  induction l with
  | nil => simp [sortDesc]
  | cons y ys ih => exact pairwise_insertDesc ih

/-- The head of sortDesc is a maximum of the input list. -/
theorem sortDesc_head_max {l : List Int} {m : Int} {rest : List Int}
    (h : sortDesc l = m :: rest) : m ∈ l ∧ ∀ a ∈ l, a ≤ m := by
  have hmem : m ∈ l := mem_sortDesc.mp (h ▸ List.mem_cons_self m rest)
  refine ⟨hmem, fun a ha => ?_⟩
  have ha' : a ∈ m :: rest := h ▸ mem_sortDesc.mpr ha
  rcases List.mem_cons.mp ha' with h1 | h1
  · exact h1 ▸ le_refl m
  · have hp := pairwise_sortDesc l
    rw [h, List.pairwise_cons] at hp
    exact hp.1 a h1

/-- C4: can_reply is false exactly when one of the three independent
checks fails - the 1-hour trailing count has reached max_per_hour, the
24-hour trailing count has reached max_per_day, or the most recent reply
time inside the 1-hour window is more recent than
now - min_seconds_between (the code tests them in that order for its
diagnostics).  The function is a pure read of the current ledger: it
takes the database as a value and returns only a Bool, so it has no side
effect on any persisted state. -/
theorem rate_limiter_can_reply_iff (db : DB) (now : Int) (platform : String)
    (max_per_hour max_per_day : Nat) (min_seconds_between : Int) :
    can_reply db now platform max_per_hour max_per_day min_seconds_between = false ↔
      (max_per_hour ≤ get_reply_count db now platform 1 ∨
       max_per_day ≤ get_reply_count db now platform 24 ∨
       (∃ t ∈ replies_within db now platform 1,
          (∀ u ∈ replies_within db now platform 1, u ≤ t) ∧
          now - t < min_seconds_between)) := by
  unfold can_reply
  by_cases h1 : get_reply_count db now platform 1 ≥ max_per_hour
  · simp [h1]
  · rw [if_neg h1]
    by_cases h2 : get_reply_count db now platform 24 ≥ max_per_day
    · simp [h1, h2]
    · rw [if_neg h2]
      cases hhead : (get_reply_timestamps db now platform 1).head? with
      | none =>
        rw [List.head?_eq_none_iff] at hhead
        unfold get_reply_timestamps at hhead
        have hnil : replies_within db now platform 1 = [] := sortDesc_eq_nil_iff.mp hhead
        simp only [hnil]
        simp [h1, h2]
      | some m =>
        obtain ⟨rest, hrest⟩ : ∃ rest, sortDesc (replies_within db now platform 1)
            = m :: rest := by
          unfold get_reply_timestamps at hhead
          cases hs : sortDesc (replies_within db now platform 1) with
          | nil => rw [hs] at hhead; simp at hhead
          | cons a as =>
            rw [hs] at hhead
            simp only [List.head?_cons, Option.some.injEq] at hhead
            exact ⟨as, by rw [hhead]⟩
        have hmax := sortDesc_head_max hrest
        constructor
        · intro hfalse
          have hred : (if now - m < min_seconds_between then false else true) = false :=
            hfalse
          by_cases hlt : now - m < min_seconds_between
          · exact Or.inr (Or.inr ⟨m, hmax.1, hmax.2, hlt⟩)
          · rw [if_neg hlt] at hred
            cases hred
        · intro hor
          show (if now - m < min_seconds_between then false else true) = false
          rcases hor with h | h | ⟨t, ht, htmax, hlt⟩
          · exact absurd h h1
          · exact absurd h h2
          · have htm : t ≤ m := hmax.2 t ht
            rw [if_pos (by omega)]

/-- record_reply_writes leaves the pending_approvals table untouched. -/
theorem pending_record_reply_writes (db : DB) (now : Int)
    (post_id platform author : String) (sentiment text : Option String) :
    (record_reply_writes db now post_id platform author sentiment text).pending_approvals
      = db.pending_approvals := rfl

/-- process_approval never touches the pending_approvals table (the
status transition, if any, is done by the caller). -/
theorem pending_process_approval (db : DB) (now : Int) (a : ApprovalRow)
    (adapter_ok record_ok : Bool) :
    (process_approval db now a adapter_ok record_ok).1.pending_approvals
      = db.pending_approvals := by
  unfold process_approval
  split_ifs <;> rfl

/-- statusOf only reads the pending_approvals table. -/
theorem statusOf_eq_of_pending_eq {db1 db2 : DB} (i : Nat)
    (h : db1.pending_approvals = db2.pending_approvals) :
    statusOf db1 i = statusOf db2 i := by
  unfold statusOf get_pending_approval
  rw [h]

/-- Looking up id i after the per-id map of update_approval_status. -/
theorem lookupApproval_map_update (l : List (Nat × ApprovalRow)) (i j : Nat)
    (f : ApprovalRow → ApprovalRow) :
    lookupApproval (l.map fun p => if p.1 = j then (p.1, f p.2) else p) i
      = if i = j then (lookupApproval l i).map f else lookupApproval l i := by
  induction l with
  | nil => by_cases h : i = j <;> simp [lookupApproval, h]
  | cons p ps ih =>
    simp only [List.map_cons]
    by_cases hpj : p.1 = j
    · rw [if_pos hpj]
      by_cases hpi : p.1 = i
      · have hij : i = j := by rw [← hpi, hpj]
        simp [lookupApproval, hpi, hij]
      · have hij : ¬(i = j) := fun hh => hpi (by rw [hpj, ← hh])
        simp [lookupApproval, hpi, hij, ih]
    · rw [if_neg hpj]
      by_cases hpi : p.1 = i
      · have hij : ¬(i = j) := fun hh => hpj (by rw [hpi, hh])
        simp [lookupApproval, hpi, hij]
      · simp [lookupApproval, hpi, ih]

/-- get_pending_approval after update_approval_status. -/
theorem get_pending_approval_update (db : DB) (i j : Nat) (st : String) (now : Int) :
    get_pending_approval (update_approval_status db j st now) i
      = if i = j then (get_pending_approval db i).map (setStatus st now)
        else get_pending_approval db i := by
  simp only [get_pending_approval, update_approval_status]
  exact lookupApproval_map_update db.pending_approvals i j (setStatus st now)

/-- statusOf after update_approval_status. -/
theorem statusOf_update (db : DB) (i j : Nat) (st : String) (now : Int) :
    statusOf (update_approval_status db j st now) i
      = if i = j then (statusOf db i).map (fun _ => st) else statusOf db i := by
  unfold statusOf
  rw [get_pending_approval_update]
  by_cases h : i = j
  · rw [if_pos h, if_pos h]
    cases get_pending_approval db i <;> rfl
  · rw [if_neg h, if_neg h]

/-- A delivery that finds the approval in a non-pending status responds
with the idempotent already-processed message and does nothing: the
database is returned unchanged, nothing executes, the adapter is not
invoked. -/
theorem slack_interactive_not_pending (db : DB) (now : Int) (action_type : String)
    (i : Nat) (adapter_ok record_ok : Bool) (s : String)
    (h1 : statusOf db i = some s) (h2 : s ≠ "pending") :
    slack_interactive db now action_type i adapter_ok record_ok
      = ⟨db, ServerResponse.already s, false, false⟩ := by
  unfold statusOf at h1
  cases ha : get_pending_approval db i with
  | none => rw [ha] at h1; cases h1
  | some a =>
    rw [ha] at h1
    have h1' : a.status = s := Option.some.inj h1
    simp [slack_interactive, ha, h1', h2]

/-- A delivery addressed to another approval id never changes the status
of id i. -/
theorem slack_interactive_other_id (db : DB) (now : Int) (action_type : String)
    (j : Nat) (adapter_ok record_ok : Bool) (i : Nat) (h : j ≠ i) :
    statusOf (slack_interactive db now action_type j adapter_ok record_ok).db i
      = statusOf db i := by
  cases hl : get_pending_approval db j with
  | none => simp [slack_interactive, hl]
  | some a =>
    simp only [slack_interactive, hl]
    by_cases hs : a.status ≠ "pending"
    · rw [if_pos hs]
    · rw [if_neg hs]
      by_cases hat : action_type = "approve"
      · rw [if_pos hat]
        by_cases hsucc : (process_approval db now a adapter_ok record_ok).2.1
        · simp only [hsucc, if_true]
          rw [statusOf_update, if_neg (fun hh => h hh.symm)]
          exact statusOf_eq_of_pending_eq i
            (pending_process_approval db now a adapter_ok record_ok)
        · simp only [Bool.not_eq_true] at hsucc
          simp only [hsucc, if_false]
          exact statusOf_eq_of_pending_eq i
            (pending_process_approval db now a adapter_ok record_ok)
      · rw [if_neg hat]
        rw [statusOf_update, if_neg (fun hh => h hh.symm)]

/-- Unfolding of run_trace on a cons. -/
theorem run_trace_cons (db : DB) (now : Int) (i : Nat) (d : Delivery)
    (ds : List Delivery) :
    run_trace db now i (d :: ds)
      = ((if statusOf db i = some "pending" ∧
            statusOf (slack_interactive db now d.action_type d.approval_id
              d.adapter_ok d.record_ok).db i ≠ some "pending" then 1 else 0)
          + (run_trace (slack_interactive db now d.action_type d.approval_id
              d.adapter_ok d.record_ok).db now i ds).1,
         (if (slack_interactive db now d.action_type d.approval_id
              d.adapter_ok d.record_ok).execSuccess = true ∧ d.approval_id = i
            then 1 else 0)
          + (run_trace (slack_interactive db now d.action_type d.approval_id
              d.adapter_ok d.record_ok).db now i ds).2.1,
         (if (slack_interactive db now d.action_type d.approval_id
              d.adapter_ok d.record_ok).adapterInvoked = true ∧
              d.adapter_ok = true ∧ d.approval_id = i then 1 else 0)
          + (run_trace (slack_interactive db now d.action_type d.approval_id
              d.adapter_ok d.record_ok).db now i ds).2.2) := rfl

/-- A delivery for an id whose status is not pending (or which does not
exist) executes nothing, never reaches the adapter, and leaves the
database unchanged. -/
theorem exec_false_of_not_pending (db : DB) (now : Int) (action_type : String)
    (i : Nat) (adapter_ok record_ok : Bool) (h : statusOf db i ≠ some "pending") :
    (slack_interactive db now action_type i adapter_ok record_ok).execSuccess = false ∧
    (slack_interactive db now action_type i adapter_ok record_ok).adapterInvoked
      = false ∧
    (slack_interactive db now action_type i adapter_ok record_ok).db = db := by
  cases hl : get_pending_approval db i with
  | none => simp [slack_interactive, hl]
  | some a =>
    have hsa : a.status ≠ "pending" := by
      intro hc
      exact h (by unfold statusOf; rw [hl]; exact congrArg some hc)
    rw [slack_interactive_not_pending db now action_type i adapter_ok record_ok a.status
      (by unfold statusOf; rw [hl]; rfl) hsa]
    exact ⟨rfl, rfl, rfl⟩

/-- Once the status of id i is out of pending, no delivery brings it
back. -/
theorem statusOf_step_not_pending (db : DB) (now : Int) (action_type : String)
    (j : Nat) (adapter_ok record_ok : Bool) (i : Nat)
    (h : statusOf db i ≠ some "pending") :
    statusOf (slack_interactive db now action_type j adapter_ok record_ok).db i
      ≠ some "pending" := by
  by_cases hj : j = i
  · subst hj
    rw [(exec_false_of_not_pending db now action_type j adapter_ok record_ok h).2.2]
    exact h
  · rw [slack_interactive_other_id db now action_type j adapter_ok record_ok i hj]
    exact h

/-- Once the status of id i is out of pending, a run of further
deliveries never transitions it again, never completes it, and never
reaches the adapter for it. -/
theorem run_trace_zero (now : Int) (i : Nat) (ds : List Delivery) :
    ∀ db : DB, statusOf db i ≠ some "pending" → run_trace db now i ds = (0, 0, 0) := by
  induction ds with
  | nil => intro db _; rfl
  | cons d ds ih =>
    intro db h
    rw [run_trace_cons]
    have ht : ¬(statusOf db i = some "pending" ∧
        statusOf (slack_interactive db now d.action_type d.approval_id
          d.adapter_ok d.record_ok).db i ≠ some "pending") := fun hc => h hc.1
    have he : ¬((slack_interactive db now d.action_type d.approval_id
        d.adapter_ok d.record_ok).execSuccess = true ∧ d.approval_id = i) := by
      intro hc
      have hh := hc.1
      rw [hc.2] at hh
      rw [(exec_false_of_not_pending db now d.action_type i d.adapter_ok
        d.record_ok h).1] at hh
      cases hh
    have hp3 : ¬((slack_interactive db now d.action_type d.approval_id
        d.adapter_ok d.record_ok).adapterInvoked = true ∧ d.adapter_ok = true ∧
        d.approval_id = i) := by
      intro hc
      have hh := hc.1
      rw [hc.2.2] at hh
      rw [(exec_false_of_not_pending db now d.action_type i d.adapter_ok
        d.record_ok h).2.1] at hh
      cases hh
    rw [if_neg ht, if_neg he, if_neg hp3,
      ih _ (statusOf_step_not_pending db now d.action_type d.approval_id d.adapter_ok
        d.record_ok i h)]
    rfl

/-- An 'approve' delivery that finds the approval pending runs
process_approval, and transitions the status to 'approved' only when
execution succeeded. -/
theorem slack_interactive_approve (db : DB) (now : Int) (i : Nat)
    (adapter_ok record_ok : Bool) (a : ApprovalRow)
    (ha : get_pending_approval db i = some a) (hp : a.status = "pending") :
    slack_interactive db now "approve" i adapter_ok record_ok
      = if (process_approval db now a adapter_ok record_ok).2.1 then
          ⟨update_approval_status (process_approval db now a adapter_ok record_ok).1
             i "approved" now,
           ServerResponse.ack "✅ APPROVED & POSTED", true,
           (process_approval db now a adapter_ok record_ok).2.2⟩
        else
          ⟨(process_approval db now a adapter_ok record_ok).1,
           ServerResponse.ack "❌ FAILED TO POST - Check logs for details", false,
           (process_approval db now a adapter_ok record_ok).2.2⟩ := by
  simp [slack_interactive, ha, hp]

/-- A non-'approve' delivery that finds the approval pending transitions
it to 'rejected' with no execution. -/
theorem slack_interactive_reject (db : DB) (now : Int) (action_type : String) (i : Nat)
    (adapter_ok record_ok : Bool) (a : ApprovalRow)
    (ha : get_pending_approval db i = some a)
    (hp : a.status = "pending") (hat : action_type ≠ "approve") :
    slack_interactive db now action_type i adapter_ok record_ok
      = ⟨update_approval_status db i "rejected" now,
         ServerResponse.ack "❌ REJECTED - Will not be posted", false, false⟩ := by
  simp [slack_interactive, ha, hp, hat]

/-- Over any sequence of sequential deliveries, the status of approval
id i leaves 'pending' at most once and at most one delivery completes
its approval (process_approval returns True and the status becomes
'approved').  No such bound holds for the third trace counter, the
number of times the adapter actually performed the action: a successful
post whose recording fails leaves the status 'pending', so a redelivery
reaches the adapter again. -/
theorem run_trace_le_one (now : Int) (i : Nat) (ds : List Delivery) :
    ∀ db : DB, (run_trace db now i ds).1 ≤ 1 ∧ (run_trace db now i ds).2.1 ≤ 1 := by
  induction ds with
  | nil => intro db; exact ⟨Nat.zero_le 1, Nat.zero_le 1⟩
  | cons d ds ih =>
    intro db
    by_cases hp : statusOf db i = some "pending"
    case neg =>
      rw [run_trace_zero now i (d :: ds) db hp]
      exact ⟨Nat.zero_le 1, Nat.zero_le 1⟩
    case pos =>
      rw [run_trace_cons]
      by_cases hdi : d.approval_id = i
      · obtain ⟨a, hl, hsa⟩ : ∃ a, get_pending_approval db i = some a ∧
            a.status = "pending" := by
          unfold statusOf at hp
          cases hl : get_pending_approval db i with
          | none => rw [hl] at hp; cases hp
          | some a => rw [hl] at hp; exact ⟨a, rfl, Option.some.inj hp⟩
        rw [hdi]
        by_cases hat : d.action_type = "approve"
        · rw [hat, slack_interactive_approve db now i d.adapter_ok d.record_ok a hl hsa]
          by_cases hsucc : (process_approval db now a d.adapter_ok d.record_ok).2.1
          · rw [if_pos hsucc]
            have hs1 : statusOf (update_approval_status
                (process_approval db now a d.adapter_ok d.record_ok).1 i "approved" now) i
                = some "approved" := by
              rw [statusOf_update, if_pos rfl,
                statusOf_eq_of_pending_eq i
                  (pending_process_approval db now a d.adapter_ok d.record_ok), hp]
              rfl
            rw [if_pos ⟨hp, by rw [hs1]; decide⟩, if_pos ⟨rfl, rfl⟩,
              run_trace_zero now i ds _ (by rw [hs1]; decide)]
            exact ⟨le_refl 1, le_refl 1⟩
          · rw [if_neg hsucc]
            have hs2 : statusOf (process_approval db now a d.adapter_ok d.record_ok).1 i
                = some "pending" :=
              (statusOf_eq_of_pending_eq i
                (pending_process_approval db now a d.adapter_ok d.record_ok)).trans hp
            rw [if_neg (fun hc => hc.2 hs2), if_neg (fun hc => by cases hc.1)]
            refine ⟨?_, ?_⟩
            · simpa using (ih _).1
            · simpa using (ih _).2
        · rw [slack_interactive_reject db now d.action_type i d.adapter_ok d.record_ok
            a hl hsa hat]
          have hs3 : statusOf (update_approval_status db i "rejected" now) i
              = some "rejected" := by
            rw [statusOf_update, if_pos rfl, hp]
            rfl
          rw [if_pos ⟨hp, by rw [hs3]; decide⟩, if_neg (fun hc => by cases hc.1),
            run_trace_zero now i ds _ (by rw [hs3]; decide)]
          exact ⟨le_refl 1, Nat.zero_le 1⟩
      · have hst := slack_interactive_other_id db now d.action_type d.approval_id
          d.adapter_ok d.record_ok i hdi
        rw [if_neg (fun hc => hc.2 (by rw [hst]; exact hp)),
          if_neg (fun hc => hdi hc.2)]
        refine ⟨?_, ?_⟩
        · simpa using (ih _).1
        · simpa using (ih _).2

/-- C1 counterexample: a purely sequential redelivery already breaks
"executed at most once".  The first 'approve' delivery for the pending
'reply' approval posts successfully (the adapter is invoked and reports
success) but the subsequent db.record_reply transaction fails;
process_approval swallows the exception and returns False, so the
handler answers with the failure message and never sets the status to
'approved' - it stays 'pending'.  The second, identical delivery then
finds 'pending' and performs the action again: over the two-delivery
trace the adapter successfully executes the gated action twice. -/
theorem approval_double_execution_cex :
    (slack_interactive dbPendingReply 5 "approve" 1 true false).adapterInvoked
        = true ∧
    (slack_interactive dbPendingReply 5 "approve" 1 true false).execSuccess = false ∧
    statusOf (slack_interactive dbPendingReply 5 "approve" 1 true false).db 1
        = some "pending" ∧
    (run_trace dbPendingReply 5 1
        [⟨"approve", 1, true, false⟩, ⟨"approve", 1, true, true⟩]).2.2 = 2 ∧
    ¬((run_trace dbPendingReply 5 1
        [⟨"approve", 1, true, false⟩, ⟨"approve", 1, true, true⟩]).2.2 ≤ 1) := by
  decide

/-- C1 (amended): for sequential (non-overlapping) callback deliveries,
per approval id: the status transitions out of 'pending' at most once;
at most one delivery completes the approval, i.e. reports success and
sets the status to 'approved'; and any delivery that finds the approval
in a non-'pending' status responds with the idempotent already-processed
200 message, changes no state, and does not invoke the platform adapter.
The gated platform action itself is NOT executed at most once: when the
post succeeds but its outcome-recording write fails, the status stays
'pending' and a redelivery re-executes (see the counterexample); and the
handler's lookup / execute / set-status run in separate connections with
no atomic guard, so truly concurrent duplicate deliveries are outside
this sequential model. -/
theorem approval_exactly_once_amended (db : DB) (now : Int) (i : Nat)
    (ds : List Delivery) (action_type : String) (adapter_ok record_ok : Bool)
    (s : String) :
    ((statusOf db i = some s ∧ s ≠ "pending") →
      slack_interactive db now action_type i adapter_ok record_ok
        = ⟨db, ServerResponse.already s, false, false⟩) ∧
    (run_trace db now i ds).1 ≤ 1 ∧ (run_trace db now i ds).2.1 ≤ 1 :=
  ⟨fun h =>
    slack_interactive_not_pending db now action_type i adapter_ok record_ok s h.1 h.2,
   (run_trace_le_one now i ds db).1, (run_trace_le_one now i ds db).2⟩

/-- Witness for C1's amended theorem on a database whose approval 1 is
already 'approved': a duplicate 'approve' delivery gets the idempotent
response with no state change and no execution, and a run of two
duplicate deliveries transitions and completes at most once. -/
theorem approval_exactly_once_amended_witness :
    slack_interactive dbApproved 2 "approve" 1 true true
        = ⟨dbApproved, ServerResponse.already "approved", false, false⟩ ∧
    (run_trace dbApproved 2 1
        [⟨"approve", 1, true, true⟩, ⟨"approve", 1, true, true⟩]).1 ≤ 1 ∧
    (run_trace dbApproved 2 1
        [⟨"approve", 1, true, true⟩, ⟨"approve", 1, true, true⟩]).2.1 ≤ 1 :=
  ⟨(approval_exactly_once_amended dbApproved 2 1
      [⟨"approve", 1, true, true⟩, ⟨"approve", 1, true, true⟩]
      "approve" true true "approved").1 ⟨by decide, by decide⟩,
   (approval_exactly_once_amended dbApproved 2 1
      [⟨"approve", 1, true, true⟩, ⟨"approve", 1, true, true⟩]
      "approve" true true "approved").2.1,
   (approval_exactly_once_amended dbApproved 2 1
      [⟨"approve", 1, true, true⟩, ⟨"approve", 1, true, true⟩]
      "approve" true true "approved").2.2⟩

/-- C3 counterexample: an 'approve' delivery for a pending 'reply'
approval whose adapter call fails leaves the approval at status
'pending', not at the terminal 'approved' status the claim asserts. -/
theorem approve_failure_status_cex :
    statusOf (slack_interactive dbPendingReply 1 "approve" 1 false true).db 1
        = some "pending" ∧
    ¬(statusOf (slack_interactive dbPendingReply 1 "approve" 1 false true).db 1
        = some "approved") := by
  decide

/-- C3 (amended): when an 'approve' delivery for a pending 'reply' or
'reshare' approval triggers execution and the platform adapter reports
failure, the approval is left at status 'pending' (update_approval_status
is only called on success, so it never reaches the terminal 'approved'),
the database is returned entirely unchanged - no outcome row, and the
seen-post stays unresponded - the delivery reports the failure message,
and the adapter was invoked exactly once with no retry inside this
delivery. -/
theorem approve_failure_leaves_pending (db : DB) (now : Int) (i : Nat)
    (record_ok : Bool) (a : ApprovalRow) (ha : get_pending_approval db i = some a)
    (hp : a.status = "pending") (hplat : a.platform = "bluesky")
    (hact : a.action = "reply" ∨ a.action = "reshare") :
    slack_interactive db now "approve" i false record_ok
      = ⟨db, ServerResponse.ack "❌ FAILED TO POST - Check logs for details",
         false, true⟩ ∧
    statusOf (slack_interactive db now "approve" i false record_ok).db i
      = some "pending" := by
  have hpr : process_approval db now a false record_ok = (db, false, true) := by
    unfold process_approval
    rcases hact with h | h <;> simp [hplat, h]
  have hmain : slack_interactive db now "approve" i false record_ok
      = ⟨db, ServerResponse.ack "❌ FAILED TO POST - Check logs for details",
         false, true⟩ := by
    rw [slack_interactive_approve db now i false record_ok a ha hp, hpr]
    rfl
  refine ⟨hmain, ?_⟩
  rw [hmain]
  unfold statusOf
  rw [ha]
  exact congrArg some hp

/-- Witness for C3's amended theorem on the concrete pending-reply
database: the failed delivery answers with the failure message, leaves
everything unchanged, and the status is still 'pending'. -/
theorem approve_failure_leaves_pending_witness :
    slack_interactive dbPendingReply 1 "approve" 1 false true
      = ⟨dbPendingReply, ServerResponse.ack "❌ FAILED TO POST - Check logs for details",
         false, true⟩ ∧
    statusOf (slack_interactive dbPendingReply 1 "approve" 1 false true).db 1
      = some "pending" :=
  approve_failure_leaves_pending dbPendingReply 1 1 true
    ⟨"p1", "bluesky", "reply", some "alice", some "hi", "pending", 0, none⟩
    (by decide) rfl rfl (Or.inl rfl)

/-- Looking up a freshly appended id: any list whose stored ids all
differ from n resolves id n to the appended row. -/
theorem lookupApproval_append_fresh (l : List (Nat × ApprovalRow)) (n : Nat)
    (row : ApprovalRow) (h : ∀ p ∈ l, p.1 ≠ n) :
    lookupApproval (l ++ [(n, row)]) n = some row := by
  induction l with
  | nil => simp [lookupApproval]
  | cons p ps ih =>
    simp only [List.cons_append, lookupApproval]
    rw [if_neg (h p (List.mem_cons_self p ps))]
    exact ih fun q hq => h q (List.mem_cons_of_mem p hq)

/-- The id returned by create_pending_approval resolves to the freshly
inserted row, in status pending. -/
theorem get_pending_approval_create (db : DB) (now : Int)
    (post_id platform action : String) (author reply : Option String)
    (hfresh : approval_ids_fresh db) :
    get_pending_approval (create_pending_approval db now post_id platform action
        author reply).1
      (create_pending_approval db now post_id platform action author reply).2
      = some ⟨post_id, platform, action, author, reply, "pending", now, none⟩ := by
  unfold create_pending_approval get_pending_approval
  exact lookupApproval_append_fresh db.pending_approvals db.next_id _
    fun p hp => Nat.ne_of_lt (hfresh p hp)

/-- C9: an approval created by the monitoring loop's interactive reply
branch stores the Stage-2 action literal ('reply_with_cta' or
'reply_casual'); the executor only matches 'reply' and 'reshare', so an
'approve' delivery falls through to the unknown-action branch whatever
the adapter would have answered: the adapter is never invoked, execution
reports failure, no outcome is recorded (the database is unchanged), and
the approval's status remains 'pending' instead of becoming
'approved'. -/
theorem stage2_actions_never_execute (db : DB) (now now2 : Int) (post_id : String)
    (author reply : Option String) (act : String) (adapter_ok record_ok : Bool)
    (hfresh : approval_ids_fresh db)
    (hact : act = "reply_with_cta" ∨ act = "reply_casual") :
    slack_interactive (create_pending_approval db now post_id "bluesky" act
        author reply).1 now2 "approve"
      (create_pending_approval db now post_id "bluesky" act author reply).2
        adapter_ok record_ok
      = ⟨(create_pending_approval db now post_id "bluesky" act author reply).1,
         ServerResponse.ack "❌ FAILED TO POST - Check logs for details",
         false, false⟩ ∧
    statusOf (slack_interactive (create_pending_approval db now post_id "bluesky" act
        author reply).1 now2 "approve"
      (create_pending_approval db now post_id "bluesky" act author reply).2
        adapter_ok record_ok).db
      (create_pending_approval db now post_id "bluesky" act author reply).2
      = some "pending" := by
  have hl := get_pending_approval_create db now post_id "bluesky" act author reply hfresh
  have hpr : process_approval
      (create_pending_approval db now post_id "bluesky" act author reply).1 now2
      ⟨post_id, "bluesky", act, author, reply, "pending", now, none⟩ adapter_ok record_ok
      = ((create_pending_approval db now post_id "bluesky" act author reply).1,
         false, false) := by
    unfold process_approval
    rcases hact with h | h <;> simp [h]
  have hmain : slack_interactive (create_pending_approval db now post_id "bluesky" act
        author reply).1 now2 "approve"
      (create_pending_approval db now post_id "bluesky" act author reply).2
        adapter_ok record_ok
      = ⟨(create_pending_approval db now post_id "bluesky" act author reply).1,
         ServerResponse.ack "❌ FAILED TO POST - Check logs for details",
         false, false⟩ := by
    rw [slack_interactive_approve _ now2 _ adapter_ok record_ok _ hl rfl, hpr]
    rfl
  refine ⟨hmain, ?_⟩
  rw [hmain]
  unfold statusOf
  rw [hl]
  rfl

/-- Witness for C9 starting from the empty database with a
'reply_with_cta' approval. -/
theorem stage2_actions_never_execute_witness :
    slack_interactive (create_pending_approval emptyDB 0 "p1" "bluesky" "reply_with_cta"
        (some "alice") (some "hi")).1 2 "approve"
      (create_pending_approval emptyDB 0 "p1" "bluesky" "reply_with_cta"
        (some "alice") (some "hi")).2 true true
      = ⟨(create_pending_approval emptyDB 0 "p1" "bluesky" "reply_with_cta"
          (some "alice") (some "hi")).1,
         ServerResponse.ack "❌ FAILED TO POST - Check logs for details",
         false, false⟩ ∧
    statusOf (slack_interactive (create_pending_approval emptyDB 0 "p1" "bluesky"
        "reply_with_cta" (some "alice") (some "hi")).1 2 "approve"
      (create_pending_approval emptyDB 0 "p1" "bluesky" "reply_with_cta"
        (some "alice") (some "hi")).2 true true).db
      (create_pending_approval emptyDB 0 "p1" "bluesky" "reply_with_cta"
        (some "alice") (some "hi")).2
      = some "pending" :=
  stage2_actions_never_execute emptyDB 0 2 "p1" (some "alice") (some "hi")
    "reply_with_cta" true true (by decide) (Or.inl rfl)

/-- C10: with no SLACK_SIGNING_SECRET configured, signature verification
returns true for every request - whatever timestamp and signature are
supplied - so the endpoint's authentication gate passes and the delivery
is processed exactly as an authenticated one; only with a (non-empty)
secret configured does the check compare the supplied signature against
'v0=' ++ HMAC-SHA256-hex(secret, "v0:{timestamp}:{body}"), accepting
exactly on equality. -/
theorem verify_signature_dev_bypass (hmac_hex : String → String → String)
    (request_body timestamp signature : String) (db : DB) (now : Int)
    (action_type : String) (approval_id : Nat) (adapter_ok record_ok : Bool)
    (s : String) :
    (verify_slack_signature none hmac_hex request_body timestamp signature = true ∧
     slack_interactive_endpoint none hmac_hex request_body timestamp signature db now
        action_type approval_id adapter_ok record_ok
       = slack_interactive db now action_type approval_id adapter_ok record_ok) ∧
    (s ≠ "" →
      (verify_slack_signature (some s) hmac_hex request_body timestamp signature = true ↔
        signature = "v0=" ++ hmac_hex s ("v0:" ++ timestamp ++ ":" ++ request_body))) := by
  refine ⟨⟨rfl, ?_⟩, ?_⟩
  · simp [slack_interactive_endpoint, verify_slack_signature]
  · intro hs
    simp [verify_slack_signature, hs, eq_comm]

/-- Witness for C10 with an arbitrary concrete digest function: the
unset-secret endpoint processes a request carrying an empty signature,
and with the secret "s3cr3t" acceptance is exactly signature equality. -/
theorem verify_signature_dev_bypass_witness :
    (verify_slack_signature none (fun k m => k ++ m) "payload=x" "123" "" = true ∧
     slack_interactive_endpoint none (fun k m => k ++ m) "payload=x" "123" ""
        dbPendingReply 1 "approve" 1 true true
       = slack_interactive dbPendingReply 1 "approve" 1 true true) ∧
    ("s3cr3t" ≠ "" →
      (verify_slack_signature (some "s3cr3t") (fun k m => k ++ m) "payload=x" "123" ""
          = true ↔
        "" = "v0=" ++ (fun (k m : String) => k ++ m) "s3cr3t"
          ("v0:" ++ "123" ++ ":" ++ "payload=x"))) :=
  verify_signature_dev_bypass (fun k m => k ++ m) "payload=x" "123" "" dbPendingReply 1
    "approve" 1 true true "s3cr3t"
